import Mathlib

/-!
Verification development for the `whisper-openapi` web service
(`webservice.py`): a FastAPI HTTP surface over a single ASR
(automatic speech recognition) engine chosen at process startup.

The HTTP layer (`webservice.py`) is embedded directly from the source.
The engine implementations, the audio loader and the configuration
object live outside the provided source tree; where a definition is
needed for them it is modelled from the specification and marked as
such in its doc comment.
-/

namespace WhisperOpenapi

/-- Process configuration, mirroring the fields of `app.config.CONFIG`
that `webservice.py` reads: `ASR_ENGINE` and `HF_TOKEN`. -/
structure Config where
  asrEngine : String
  hfToken : String
deriving DecidableEq

/-- Modelled from the spec: `EngineCapabilities` is a static descriptor,
one per selectable engine variant, stating which optional features it
supports (VAD, word timestamps, diarization, language detection). -/
structure EngineCapabilities where
  vad : Bool
  wordTimestamps : Bool
  diarization : Bool
  languageDetection : Bool
deriving DecidableEq

/-- Modelled from the spec (section 4.2): the reference variant supports
transcribe/translate and language detection only; the optimized variant
(`faster_whisper`) adds VAD filtering and word-level timestamps; the
diarization-augmented variant (`whisperx`) wraps the optimized variant
with a speaker-clustering post-pass. Any other name is treated as the
reference variant. -/
def capabilitiesOf (name : String) : EngineCapabilities :=
  if name = "faster_whisper" then ⟨true, true, false, true⟩
  else if name = "whisperx" then ⟨true, true, true, true⟩
  else ⟨false, false, false, true⟩

/-- A constructed `TranscriptionEngine` instance: the variant name it was
built for and that variant's capability descriptor.  Mirrors the object
returned by `ASRModelFactory.create_asr_model()` (not under `src/`). -/
structure Engine where
  variantName : String
  caps : EngineCapabilities
deriving DecidableEq

/-- Modelled from the spec (section 4.3, `EngineFactory`): reads the single
static configuration value naming the engine variant and constructs exactly
one instance.  Embeds `ASRModelFactory.create_asr_model()` as called at
module import time in `webservice.py` line 14. -/
def createAsrModel (cfg : Config) : Engine :=
  ⟨cfg.asrEngine, capabilitiesOf cfg.asrEngine⟩

/-- Error taxonomy, modelled from the spec (section 7). -/
inductive AsrError
  | invalidAudio
  | invalidOption
  | engineTimeout
  | invalidSegment
deriving DecidableEq

/-- HTTP status assigned to each error, modelled from the spec (section 7):
`InvalidAudioError` and `InvalidOptionError` map to 400, `EngineTimeoutError`
to 504, `InvalidSegmentError` to 500. -/
def statusOf : AsrError → Nat
  | .invalidAudio => 400
  | .invalidOption => 400
  | .engineTimeout => 504
  | .invalidSegment => 500

/-- Modelled from the spec (section 2, AudioSource, i.e. `app.utils.load_audio`,
not under `src/`): given raw uploaded bytes and the pre-encode flag, yields a
normalized waveform; failure on an empty/malformed upload is a client-input
error (`InvalidAudioError`).  Decoding itself is opaque to every claim, so the
waveform is modelled as the byte sequence itself. -/
def loadAudio (bytes : List Nat) (_encode : Bool) : Except AsrError (List Nat) :=
  if bytes = [] then .error .invalidAudio else .ok bytes

/-- Diarization options dictionary built by both transcription endpoints
(`webservice.py` lines 81-85 and 147-151). -/
structure DiarizationOptions where
  diarize : Bool
  minSpeakers : Option Int
  maxSpeakers : Option Int
deriving DecidableEq

/-- The full argument tuple of `asr_model.transcribe(...)` as invoked by
`webservice.py` (lines 74-87 and 140-153). -/
structure TranscribeCall where
  audio : List Nat
  task : String
  language : Option String
  initialPrompt : Option String
  vadFilter : Bool
  wordTimestamps : Bool
  diarization : DiarizationOptions
  output : String
deriving DecidableEq

/-- A transcript segment, modelled from the spec (section 3). -/
structure Segment where
  startTime : ℚ
  endTime : ℚ
  text : String
  speakerLabel : Option String
deriving DecidableEq

/-- Modelled from the spec (section 4.2): the VAD pre-filter stage drops
non-speech spans of the waveform before decoding; non-speech is modelled
as zero samples. -/
def vadStage (w : List Nat) : List Nat :=
  w.filter (fun s => s ≠ 0)

/-- Modelled from the spec (sections 1 and 4.1): the neural inference kernel
is an opaque external capability; it is modelled as a deterministic function
from the waveform to one segment spanning it. -/
def runInference (w : List Nat) : List Segment :=
  [⟨0, (w.length : ℚ), String.intercalate " " (w.map toString), none⟩]

/-- Modelled from the spec (section 4.2): the speaker-clustering post-pass
assigns a `speakerLabel` to every segment without altering segment
boundaries or timing. -/
def diarizePass (segs : List Segment) : List Segment :=
  segs.map (fun s => { s with speakerLabel := some "SPEAKER_00" })

/-- Modelled from the spec (section 4.4, OutputFormatter): renders the
segment sequence into one of five textual encodings. -/
def render (fmt : String) (segs : List Segment) : String :=
  if fmt = "txt" then
    String.intercalate "\n" (segs.map (fun s => s.text))
  else if fmt = "tsv" then
    String.intercalate "\n"
      (segs.map (fun s => toString s.startTime ++ "\t" ++ toString s.endTime ++ "\t" ++ s.text))
  else if fmt = "vtt" then
    "WEBVTT\n\n" ++ String.intercalate "\n\n"
      (segs.map (fun s => toString s.startTime ++ " --> " ++ toString s.endTime ++ "\n" ++ s.text))
  else if fmt = "srt" then
    String.intercalate "\n\n"
      (segs.enum.map (fun p =>
        toString (p.1 + 1) ++ "\n" ++ toString p.2.startTime ++ " --> " ++ toString p.2.endTime
          ++ "\n" ++ p.2.text))
  else
    "[" ++ String.intercalate ","
      (segs.map (fun s => "[" ++ toString s.startTime ++ "," ++ toString s.endTime
        ++ "," ++ s.text ++ "]")) ++ "]"

instance {ε α : Type} [DecidableEq ε] [DecidableEq α] : DecidableEq (Except ε α) := fun x y =>
  match x, y with
  | .ok a, .ok b =>
      if h : a = b then .isTrue (congrArg Except.ok h)
      else .isFalse (fun hc => h (Except.ok.inj hc))
  | .error a, .error b =>
      if h : a = b then .isTrue (congrArg Except.error h)
      else .isFalse (fun hc => h (Except.error.inj hc))
  | .ok _, .error _ => .isFalse (fun hc => Except.noConfusion hc)
  | .error _, .ok _ => .isFalse (fun hc => Except.noConfusion hc)

/-- Result of one `transcribe` invocation: the rendered output or an error,
together with a flag recording whether model inference was reached (used to
state that option validation happens before any inference runs). -/
structure TranscribeResult where
  result : Except AsrError String
  inferenceRan : Bool
deriving DecidableEq

/-- Contradictory speaker bounds: both provided and `minSpeakers > maxSpeakers`.
Modelled from the spec (section 4.2). -/
def speakerBoundsBad (d : DiarizationOptions) : Bool :=
  match d.minSpeakers, d.maxSpeakers with
  | some mn, some mx => mx < mn
  | _, _ => false

/-- Modelled from the spec (section 3, capability gating): an optional feature
requested but not advertised by the active engine's capabilities is silently
ignored, never an error. -/
def effectiveCall (caps : EngineCapabilities) (call : TranscribeCall) : TranscribeCall :=
  { call with
    vadFilter := call.vadFilter && caps.vad
    wordTimestamps := call.wordTimestamps && caps.wordTimestamps
    diarization := { call.diarization with
      diarize := call.diarization.diarize && caps.diarization } }

/-- Modelled from the spec (sections 4.1 and 4.2): `transcribe` fails with
`InvalidAudioError` on an empty waveform; with diarization active and
contradictory speaker bounds it fails with `InvalidOptionError` before any
inference runs; otherwise the (capability-gated) VAD stage, inference,
diarization post-pass and output formatting are applied in order. -/
def transcribeCore (call : TranscribeCall) : TranscribeResult :=
  if call.audio = [] then ⟨.error .invalidAudio, false⟩
  else if call.diarization.diarize && speakerBoundsBad call.diarization then
    ⟨.error .invalidOption, false⟩
  else
    let w := if call.vadFilter then vadStage call.audio else call.audio
    let segs := runInference w
    let segs := if call.diarization.diarize then diarizePass segs else segs
    ⟨.ok (render call.output segs), true⟩

/-- `asr_model.transcribe(...)`: capability gating followed by the core
transcription pipeline. -/
def Engine.transcribe (e : Engine) (call : TranscribeCall) : TranscribeResult :=
  transcribeCore (effectiveCall e.caps call)

/-- Characters left unescaped by `urllib.parse.quote` with its default
`safe='/'`: ASCII letters, digits, `_`, `.`, `-`, `~` and `/`. -/
def quoteSafe (c : Nat) : Bool :=
  (65 ≤ c && c ≤ 90) || (97 ≤ c && c ≤ 122) || (48 ≤ c && c ≤ 57) ||
    c = 95 || c = 46 || c = 45 || c = 126 || c = 47

/-- Upper-case hexadecimal digit for a value below 16. -/
def hexDigit (n : Nat) : Char :=
  if n < 10 then Char.ofNat (48 + n) else Char.ofNat (55 + n)

/-- `urllib.parse.quote` over the UTF-8 bytes of the filename: safe bytes pass
through, every other byte becomes `%XX` with upper-case hex. -/
def pyQuote : List Nat → String
  | [] => ""
  | c :: cs =>
      (if quoteSafe c then String.singleton (Char.ofNat c)
       else "%" ++ String.singleton (hexDigit (c / 16 % 16)) ++ String.singleton (hexDigit (c % 16)))
        ++ pyQuote cs

/-- A request to `POST /asr` (`webservice.py` lines 31-72).  Each parameter
with a FastAPI default is `Option`-valued here; `none` means the client
omitted it and the handler applies the declared default. -/
structure AsrRequest where
  audioFile : List Nat
  filename : List Nat
  encode : Option Bool
  task : Option String
  language : Option String
  initialPrompt : Option String
  vadFilter : Option Bool
  wordTimestamps : Option Bool
  diarize : Option Bool
  minSpeakers : Option Int
  maxSpeakers : Option Int
  output : Option String
deriving DecidableEq

/-- A request to `POST /audio/transcriptions` (`webservice.py` lines 99-138),
with OpenAI-compatible form field names. -/
structure TranscriptionsRequest where
  file : List Nat
  filename : List Nat
  encode : Option Bool
  language : Option String
  prompt : Option String
  vadFilter : Option Bool
  wordTimestamps : Option Bool
  diarize : Option Bool
  minSpeakers : Option Int
  maxSpeakers : Option Int
  model : Option String
  responseFormat : Option String
deriving DecidableEq

/-- A request to `POST /detect-language` (`webservice.py` lines 165-167). -/
structure DetectLanguageRequest where
  audioFile : List Nat
  filename : List Nat
  encode : Option Bool
deriving DecidableEq

/-- The `enum` list declared on the `output` query parameter of `POST /asr`
(`webservice.py` line 71). -/
def asrOutputEnum : List String := ["txt", "vtt", "srt", "tsv", "json"]

/-- The `enum` list declared on the `response_format` form field of
`POST /audio/transcriptions` (`webservice.py` line 137). -/
def transcriptionsResponseFormatEnum : List String := ["txt", "vtt", "srt", "tsv", "json"]

/-- The value of the `model` form field of `POST /audio/transcriptions` after
its declared default `"whisper-1"` is applied (`webservice.py` line 135).
The handler body never reads it. -/
def transcriptionsModelParam (r : TranscriptionsRequest) : String :=
  r.model.getD "whisper-1"

/-- The argument tuple `POST /asr` passes to `asr_model.transcribe`
(`webservice.py` lines 74-87), after the audio upload is decoded and the
declared parameter defaults are applied.  Built from the request alone: no
configuration value enters the call. -/
def asrCallOf (req : AsrRequest) : Except AsrError TranscribeCall :=
  match loadAudio req.audioFile (req.encode.getD true) with
  | .error e => .error e
  | .ok w => .ok
    { audio := w
      task := req.task.getD "transcribe"
      language := req.language
      initialPrompt := req.initialPrompt
      vadFilter := req.vadFilter.getD false
      wordTimestamps := req.wordTimestamps.getD false
      diarization :=
        { diarize := req.diarize.getD false
          minSpeakers := req.minSpeakers
          maxSpeakers := req.maxSpeakers }
      output := req.output.getD "txt" }

/-- The argument tuple `POST /audio/transcriptions` passes to
`asr_model.transcribe` (`webservice.py` lines 140-153): the task is the
string literal `"transcribe"`, the prompt maps to `initial_prompt` and
`response_format` (default `"json"`) to the output format. -/
def transcriptionsCallOf (req : TranscriptionsRequest) : Except AsrError TranscribeCall :=
  match loadAudio req.file (req.encode.getD true) with
  | .error e => .error e
  | .ok w => .ok
    { audio := w
      task := "transcribe"
      language := req.language
      initialPrompt := req.prompt
      vadFilter := req.vadFilter.getD false
      wordTimestamps := req.wordTimestamps.getD false
      diarization :=
        { diarize := req.diarize.getD false
          minSpeakers := req.minSpeakers
          maxSpeakers := req.maxSpeakers }
      output := req.responseFormat.getD "json" }

/-- A JSON value as produced by the service (strings and numbers suffice). -/
inductive Json
  | str (s : String)
  | num (q : ℚ)
deriving DecidableEq

/-- A response body: a streamed text body or a JSON object given as an
ordered field list. -/
inductive Body
  | stream (s : String)
  | jsonObj (fields : List (String × Json))
deriving DecidableEq

/-- An HTTP response: status, media type, extra headers, body. -/
structure HttpResponse where
  status : Nat
  mediaType : String
  headers : List (String × String)
  body : Body
deriving DecidableEq

/-- Modelled from the spec (section 7): an engine error surfaces once to the
requesting client with a structured message and the status of `statusOf`. -/
def errorResponse (e : AsrError) : HttpResponse :=
  ⟨statusOf e, "application/json", [], .jsonObj [("detail", .str "error")]⟩

/-- The handler of `POST /asr` (`webservice.py` lines 31-95): decode the
upload, call `asr_model.transcribe`, and stream the result as `text/plain`
with the `Asr-Engine` and `Content-Disposition` headers. -/
def asrEndpoint (cfg : Config) (engine : Engine) (req : AsrRequest) : HttpResponse :=
  match asrCallOf req with
  | .error e => errorResponse e
  | .ok call =>
    match (engine.transcribe call).result with
    | .error e => errorResponse e
    | .ok out =>
      { status := 200
        mediaType := "text/plain"
        headers :=
          [("Asr-Engine", cfg.asrEngine),
           ("Content-Disposition",
             "attachment; filename=\"" ++ pyQuote req.filename ++ "."
               ++ req.output.getD "txt" ++ "\"")]
        body := .stream out }

/-- The handler of `POST /audio/transcriptions` (`webservice.py` lines
99-161): identical to `/asr` except for the form field names, the fixed
`"transcribe"` task and the `response_format` default. -/
def transcriptionsEndpoint (cfg : Config) (engine : Engine) (req : TranscriptionsRequest) :
    HttpResponse :=
  match transcriptionsCallOf req with
  | .error e => errorResponse e
  | .ok call =>
    match (engine.transcribe call).result with
    | .error e => errorResponse e
    | .ok out =>
      { status := 200
        mediaType := "text/plain"
        headers :=
          [("Asr-Engine", cfg.asrEngine),
           ("Content-Disposition",
             "attachment; filename=\"" ++ pyQuote req.filename ++ "."
               ++ req.responseFormat.getD "json" ++ "\"")]
        body := .stream out }

/-- The Whisper language table `tokenizer.LANGUAGES` imported by
`webservice.py` line 8 (an external dependency of the repository): ISO code
to human-readable name. -/
def languagesTable : List (String × String) :=
  [("en", "english"), ("zh", "chinese"), ("de", "german"), ("es", "spanish"),
   ("ru", "russian"), ("ko", "korean"), ("fr", "french"), ("ja", "japanese"),
   ("pt", "portuguese"), ("tr", "turkish"), ("pl", "polish"), ("ca", "catalan"),
   ("nl", "dutch"), ("ar", "arabic"), ("sv", "swedish"), ("it", "italian"),
   ("id", "indonesian"), ("hi", "hindi"), ("fi", "finnish"), ("vi", "vietnamese"),
   ("he", "hebrew"), ("uk", "ukrainian"), ("el", "greek"), ("ms", "malay"),
   ("cs", "czech"), ("ro", "romanian"), ("da", "danish"), ("hu", "hungarian"),
   ("ta", "tamil"), ("no", "norwegian"), ("th", "thai"), ("ur", "urdu"),
   ("hr", "croatian"), ("bg", "bulgarian"), ("lt", "lithuanian"), ("la", "latin"),
   ("mi", "maori"), ("ml", "malayalam"), ("cy", "welsh"), ("sk", "slovak"),
   ("te", "telugu"), ("fa", "persian"), ("lv", "latvian"), ("bn", "bengali"),
   ("sr", "serbian"), ("az", "azerbaijani"), ("sl", "slovenian"), ("kn", "kannada"),
   ("et", "estonian"), ("mk", "macedonian"), ("br", "breton"), ("eu", "basque"),
   ("is", "icelandic"), ("hy", "armenian"), ("ne", "nepali"), ("mn", "mongolian"),
   ("bs", "bosnian"), ("kk", "kazakh"), ("sq", "albanian"), ("sw", "swahili"),
   ("gl", "galician"), ("mr", "marathi"), ("pa", "punjabi"), ("si", "sinhala"),
   ("km", "khmer"), ("sn", "shona"), ("yo", "yoruba"), ("so", "somali"),
   ("af", "afrikaans"), ("oc", "occitan"), ("ka", "georgian"), ("be", "belarusian"),
   ("tg", "tajik"), ("sd", "sindhi"), ("gu", "gujarati"), ("am", "amharic"),
   ("yi", "yiddish"), ("lo", "lao"), ("uz", "uzbek"), ("fo", "faroese"),
   ("ht", "haitian creole"), ("ps", "pashto"), ("tk", "turkmen"), ("nn", "nynorsk"),
   ("mt", "maltese"), ("sa", "sanskrit"), ("lb", "luxembourgish"), ("my", "myanmar"),
   ("bo", "tibetan"), ("tl", "tagalog"), ("mg", "malagasy"), ("as", "assamese"),
   ("tt", "tatar"), ("haw", "hawaiian"), ("ln", "lingala"), ("ha", "hausa"),
   ("ba", "bashkir"), ("jw", "javanese"), ("su", "sundanese")]

/-- The key set of the language table, as used on `webservice.py` line 17
(the source sorts it for the documentation enum; the order is immaterial for
the membership facts proved here). -/
def LANGUAGE_CODES : List String := languagesTable.map Prod.fst

/-- Dictionary access `tokenizer.LANGUAGES[code]` (`webservice.py` line 173). -/
def lookupLanguageName (code : String) : String :=
  (languagesTable.lookup code).getD ""

/-- Modelled from the spec (section 4.1, `detectLanguage`): deterministic for
identical input; returns a language code from the supported set together with
a confidence score in the unit interval.  The neural detector itself is
opaque, so the code is chosen deterministically from the waveform and the
confidence is a simple positive score bounded by one. -/
def languageDetection (w : List Nat) : String × ℚ :=
  (LANGUAGE_CODES.get
     ⟨(w.foldl (· + ·) 0) % LANGUAGE_CODES.length, Nat.mod_lt _ (by decide)⟩,
   1 / ((w.length : ℚ) + 1))

/-- `asr_model.language_detection(...)` as invoked on `webservice.py`
line 169; every engine variant supports language detection. -/
def Engine.languageDetection (_e : Engine) (w : List Nat) : String × ℚ :=
  WhisperOpenapi.languageDetection w

/-- The handler of `POST /detect-language` (`webservice.py` lines 165-176):
decode the upload, run language detection, return the three-field JSON
object. -/
def detectLanguageEndpoint (engine : Engine) (req : DetectLanguageRequest) : HttpResponse :=
  match loadAudio req.audioFile (req.encode.getD true) with
  | .error e => errorResponse e
  | .ok w =>
    let r := engine.languageDetection w
    { status := 200
      mediaType := "application/json"
      headers := []
      body := .jsonObj
        [("detected_language", .str (lookupLanguageName r.1)),
         ("language_code", .str r.1),
         ("confidence", .num r.2)] }

/-- Which optional parameters are exposed (`include_in_schema`) in the
generated documentation for one endpoint. -/
structure SchemaExposure where
  vadFilter : Bool
  wordTimestamps : Bool
  diarize : Bool
  minSpeakers : Bool
  maxSpeakers : Bool
deriving DecidableEq

/-- The `include_in_schema` conditions declared on the `POST /asr`
parameters (`webservice.py` lines 39-69), each a literal
`True if ... else False` on the configuration. -/
def asrSchemaExposure (cfg : Config) : SchemaExposure :=
  { vadFilter := if cfg.asrEngine = "faster_whisper" then true else false
    wordTimestamps := if cfg.asrEngine = "faster_whisper" then true else false
    diarize := if cfg.asrEngine = "whisperx" ∧ cfg.hfToken ≠ "" then true else false
    minSpeakers := if cfg.asrEngine = "whisperx" then true else false
    maxSpeakers := if cfg.asrEngine = "whisperx" then true else false }

/-- The `include_in_schema` conditions declared on the
`POST /audio/transcriptions` fields (`webservice.py` lines 104-134),
textually identical to those of `/asr`. -/
def transcriptionsSchemaExposure (cfg : Config) : SchemaExposure :=
  { vadFilter := if cfg.asrEngine = "faster_whisper" then true else false
    wordTimestamps := if cfg.asrEngine = "faster_whisper" then true else false
    diarize := if cfg.asrEngine = "whisperx" ∧ cfg.hfToken ≠ "" then true else false
    minSpeakers := if cfg.asrEngine = "whisperx" then true else false
    maxSpeakers := if cfg.asrEngine = "whisperx" then true else false }

/-- An inbound request to one of the three POST endpoints. -/
inductive Request
  | asr (r : AsrRequest)
  | transcriptions (r : TranscriptionsRequest)
  | detectLanguage (r : DetectLanguageRequest)
deriving DecidableEq

/-- The uploaded audio bytes of a request, whichever endpoint it targets. -/
def requestAudio : Request → List Nat
  | .asr r => r.audioFile
  | .transcriptions r => r.file
  | .detectLanguage r => r.audioFile

/-- Process state of the web service: the single engine instance bound to
the module-level `asr_model` (`webservice.py` line 14) and a count of how
many engine constructions have occurred. -/
structure ServerState where
  asrModel : Engine
  modelsConstructed : Nat
deriving DecidableEq

/-- Module import (`webservice.py` lines 14-15): the factory constructs the
one engine instance before any endpoint can be served. -/
def startup (cfg : Config) : ServerState :=
  { asrModel := createAsrModel cfg, modelsConstructed := 1 }

/-- Request dispatch: every endpoint handler reads the module-level
`asr_model` and never writes it. -/
def handle (cfg : Config) (s : ServerState) : Request → HttpResponse × ServerState
  | .asr r => (asrEndpoint cfg s.asrModel r, s)
  | .transcriptions r => (transcriptionsEndpoint cfg s.asrModel r, s)
  | .detectLanguage r => (detectLanguageEndpoint s.asrModel r, s)

/-- A whole server run: startup state threaded through a sequence of
requests, collecting the responses. -/
def serverRun (cfg : Config) : List Request → ServerState → List HttpResponse × ServerState
  | [], s => ([], s)
  | r :: rs, s =>
    let p := handle cfg s r
    let q := serverRun cfg rs p.2
    (p.1 :: q.1, q.2)

/-- Refinement map used to compare the two transcription endpoints: the
`/audio/transcriptions` form fields renamed to their `/asr` counterparts,
with the fixed `"transcribe"` task and with `response_format` (its own
`"json"` default applied) standing for `output`. -/
def toAsrRequest (r : TranscriptionsRequest) : AsrRequest :=
  { audioFile := r.file
    filename := r.filename
    encode := r.encode
    task := some "transcribe"
    language := r.language
    initialPrompt := r.prompt
    vadFilter := r.vadFilter
    wordTimestamps := r.wordTimestamps
    diarize := r.diarize
    minSpeakers := r.minSpeakers
    maxSpeakers := r.maxSpeakers
    output := some (r.responseFormat.getD "json") }

/-- Sample configuration selecting the reference engine variant. -/
def sampleCfg : Config := ⟨"openai_whisper", ""⟩

/-- Engine constructed for `sampleCfg`. -/
def sampleEngine : Engine := createAsrModel sampleCfg

/-- Engine constructed for a `whisperx` configuration. -/
def whisperxEngine : Engine := createAsrModel ⟨"whisperx", "token"⟩

/-- A small concrete `/asr` request with a nonempty upload; the filename
bytes are `a b` (the space exercises percent-encoding). -/
def sampleAsrRequest : AsrRequest :=
  { audioFile := [1, 2], filename := [97, 32, 98], encode := none, task := none,
    language := none, initialPrompt := none, vadFilter := none, wordTimestamps := none,
    diarize := none, minSpeakers := none, maxSpeakers := none, output := none }

/-- A small concrete `/audio/transcriptions` request with a nonempty upload. -/
def sampleTranscriptionsRequest : TranscriptionsRequest :=
  { file := [1, 2], filename := [97], encode := none, language := none, prompt := none,
    vadFilter := none, wordTimestamps := none, diarize := none, minSpeakers := none,
    maxSpeakers := none, model := none, responseFormat := none }

/-- A small concrete `/detect-language` request with a nonempty upload. -/
def sampleDetectRequest : DetectLanguageRequest := ⟨[1, 2], [97], none⟩

/-- The sample `/asr` request with its upload emptied. -/
def emptyAsrRequest : AsrRequest := { sampleAsrRequest with audioFile := [] }

/-- A transcribe call requesting diarization with contradictory speaker
bounds `min_speakers=3 > max_speakers=2`. -/
def badBoundsCall : TranscribeCall :=
  { audio := [1, 2], task := "transcribe", language := none, initialPrompt := none,
    vadFilter := false, wordTimestamps := false,
    diarization := ⟨true, some 3, some 2⟩, output := "txt" }

theorem statusOf_ne_ok (e : AsrError) : statusOf e ≠ 200 := by
  cases e <;> decide

theorem handle_state (cfg : Config) (s : ServerState) (r : Request) :
    (handle cfg s r).2 = s := by
  cases r <;> rfl

theorem serverRun_const (cfg : Config) (s : ServerState) (rs : List Request) :
    serverRun cfg rs s = (rs.map (fun r => (handle cfg s r).1), s) := by
  induction rs with
  | nil => rfl
  | cons r rs ih =>
    simp only [serverRun, handle_state, List.map_cons]
    simp [ih]

/-- Claim C10: with the format parameter omitted, `/asr` defaults the output
format to `"txt"` while `/audio/transcriptions` defaults `response_format`
to `"json"`; both endpoints declare the same five-value format enum. -/
theorem c10_format_defaults_and_enums (req : AsrRequest) (treq : TranscriptionsRequest)
    (call call2 : TranscribeCall)
    (ho : req.output = none) (hro : treq.responseFormat = none)
    (h : asrCallOf req = .ok call) (h2 : transcriptionsCallOf treq = .ok call2) :
    call.output = "txt" ∧ call2.output = "json" ∧
      asrOutputEnum = transcriptionsResponseFormatEnum ∧
      asrOutputEnum = ["txt", "vtt", "srt", "tsv", "json"] := by
  refine ⟨?_, ?_, rfl, rfl⟩
  · unfold asrCallOf at h
    cases hl : loadAudio req.audioFile (req.encode.getD true) with
    | error e => rw [hl] at h; cases h
    | ok w =>
      rw [hl] at h
      cases h
      simp [ho]
  · unfold transcriptionsCallOf at h2
    cases hl : loadAudio treq.file (treq.encode.getD true) with
    | error e => rw [hl] at h2; cases h2
    | ok w =>
      rw [hl] at h2
      cases h2
      simp [hro]

theorem c10_format_defaults_and_enums_witness :
    ∃ call call2,
      asrCallOf sampleAsrRequest = .ok call ∧
      transcriptionsCallOf sampleTranscriptionsRequest = .ok call2 ∧
      (call.output = "txt" ∧ call2.output = "json" ∧
        asrOutputEnum = transcriptionsResponseFormatEnum ∧
        asrOutputEnum = ["txt", "vtt", "srt", "tsv", "json"]) :=
  ⟨_, _, rfl, rfl,
    c10_format_defaults_and_enums sampleAsrRequest sampleTranscriptionsRequest _ _
      rfl rfl rfl rfl⟩

/-- Claim C9: the optional `model` form field of `/audio/transcriptions`
defaults to `"whisper-1"` and is never passed to the engine: two requests
identical except for `model` produce the same transcribe call and the same
response. -/
theorem c9_model_field_ignored (cfg : Config) (e : Engine)
    (treq : TranscriptionsRequest) (m : Option String) :
    transcriptionsModelParam { treq with model := none } = "whisper-1" ∧
    transcriptionsCallOf { treq with model := m } = transcriptionsCallOf treq ∧
    transcriptionsEndpoint cfg e { treq with model := m } =
      transcriptionsEndpoint cfg e treq :=
  ⟨rfl, rfl, rfl⟩

/-- Claim C2: `/audio/transcriptions` always passes the constant
`"transcribe"` task to the engine, and the remaining arguments have exactly
the `/asr` forwarding semantics (via the field-renaming map `toAsrRequest`,
with the endpoint's own `response_format` default applied). -/
theorem c2_task_fixed_and_asr_semantics (treq : TranscriptionsRequest)
    (call : TranscribeCall)
    (h : transcriptionsCallOf treq = .ok call) :
    call.task = "transcribe" ∧
    transcriptionsCallOf treq = asrCallOf (toAsrRequest treq) := by
  constructor
  · unfold transcriptionsCallOf at h
    cases hl : loadAudio treq.file (treq.encode.getD true) with
    | error e => rw [hl] at h; cases h
    | ok w => rw [hl] at h; cases h; rfl
  · rfl

theorem c2_task_fixed_and_asr_semantics_witness :
    ∃ call, transcriptionsCallOf sampleTranscriptionsRequest = .ok call ∧
      (call.task = "transcribe" ∧
        transcriptionsCallOf sampleTranscriptionsRequest =
          asrCallOf (toAsrRequest sampleTranscriptionsRequest)) :=
  ⟨_, rfl, c2_task_fixed_and_asr_semantics sampleTranscriptionsRequest _ rfl⟩

/-- Claim C1: on both transcription endpoints every optional parameter
(`vad_filter`, `word_timestamps`, `diarize`, `min_speakers`, `max_speakers`)
is accepted and forwarded into the engine's transcribe call (the call
builders take no configuration input at all), while documentation exposure
is conditional: `vad_filter`/`word_timestamps` iff the engine is
`faster_whisper`, `diarize` iff the engine is `whisperx` with a non-empty
`HF_TOKEN`, and `min_speakers`/`max_speakers` iff the engine is `whisperx`;
the conditions are identical on both endpoints. -/
theorem c1_params_forwarded_exposure_conditional (cfg : Config) (req : AsrRequest)
    (treq : TranscriptionsRequest) (call call2 : TranscribeCall)
    (h : asrCallOf req = .ok call) (h2 : transcriptionsCallOf treq = .ok call2) :
    (call.vadFilter = req.vadFilter.getD false ∧
     call.wordTimestamps = req.wordTimestamps.getD false ∧
     call.diarization.diarize = req.diarize.getD false ∧
     call.diarization.minSpeakers = req.minSpeakers ∧
     call.diarization.maxSpeakers = req.maxSpeakers) ∧
    (call2.vadFilter = treq.vadFilter.getD false ∧
     call2.wordTimestamps = treq.wordTimestamps.getD false ∧
     call2.diarization.diarize = treq.diarize.getD false ∧
     call2.diarization.minSpeakers = treq.minSpeakers ∧
     call2.diarization.maxSpeakers = treq.maxSpeakers) ∧
    ((asrSchemaExposure cfg).vadFilter = true ↔ cfg.asrEngine = "faster_whisper") ∧
    ((asrSchemaExposure cfg).wordTimestamps = true ↔ cfg.asrEngine = "faster_whisper") ∧
    ((asrSchemaExposure cfg).diarize = true ↔
      (cfg.asrEngine = "whisperx" ∧ cfg.hfToken ≠ "")) ∧
    ((asrSchemaExposure cfg).minSpeakers = true ↔ cfg.asrEngine = "whisperx") ∧
    ((asrSchemaExposure cfg).maxSpeakers = true ↔ cfg.asrEngine = "whisperx") ∧
    transcriptionsSchemaExposure cfg = asrSchemaExposure cfg := by
  refine ⟨?_, ?_, ?_, ?_, ?_, ?_, ?_, rfl⟩
  · unfold asrCallOf at h
    cases hl : loadAudio req.audioFile (req.encode.getD true) with
    | error e => rw [hl] at h; cases h
    | ok w => rw [hl] at h; cases h; exact ⟨rfl, rfl, rfl, rfl, rfl⟩
  · unfold transcriptionsCallOf at h2
    cases hl : loadAudio treq.file (treq.encode.getD true) with
    | error e => rw [hl] at h2; cases h2
    | ok w => rw [hl] at h2; cases h2; exact ⟨rfl, rfl, rfl, rfl, rfl⟩
  · by_cases hp : cfg.asrEngine = "faster_whisper" <;> simp [asrSchemaExposure, hp]
  · by_cases hp : cfg.asrEngine = "faster_whisper" <;> simp [asrSchemaExposure, hp]
  · by_cases hp : cfg.asrEngine = "whisperx" ∧ cfg.hfToken ≠ "" <;>
      simp [asrSchemaExposure, hp]
  · by_cases hp : cfg.asrEngine = "whisperx" <;> simp [asrSchemaExposure, hp]
  · by_cases hp : cfg.asrEngine = "whisperx" <;> simp [asrSchemaExposure, hp]

theorem c1_params_forwarded_exposure_conditional_witness :
    ((asrSchemaExposure sampleCfg).vadFilter = true ↔
      sampleCfg.asrEngine = "faster_whisper") ∧
    transcriptionsSchemaExposure sampleCfg = asrSchemaExposure sampleCfg := by
  have H := c1_params_forwarded_exposure_conditional sampleCfg sampleAsrRequest
    sampleTranscriptionsRequest _ _ rfl rfl
  exact ⟨H.2.2.1, H.2.2.2.2.2.2.2⟩

/-- Claim C3: exactly one engine instance is constructed, at startup, and
every request of any run dispatches to that same instance; the server state
is never changed by a request, so the engine is never replaced. -/
theorem c3_engine_singleton (cfg : Config) (rs : List Request) :
    (serverRun cfg rs (startup cfg)).2 = startup cfg ∧
    (startup cfg).modelsConstructed = 1 ∧
    (startup cfg).asrModel = createAsrModel cfg ∧
    (serverRun cfg rs (startup cfg)).1 =
      rs.map (fun r => (handle cfg (startup cfg) r).1) := by
  refine ⟨?_, rfl, rfl, ?_⟩ <;> simp [serverRun_const]

/-- Claim C5: on each of the three endpoints, an empty audio upload yields
the `InvalidAudioError` response with HTTP status 400, never a 200. -/
theorem c5_empty_audio_rejected (cfg : Config) (s : ServerState) (r : Request)
    (h : requestAudio r = []) :
    (handle cfg s r).1 = errorResponse .invalidAudio ∧
    (handle cfg s r).1.status = 400 := by
  have hr : (handle cfg s r).1 = errorResponse .invalidAudio := by
    cases r with
    | asr req =>
      simp only [requestAudio] at h
      simp [handle, asrEndpoint, asrCallOf, loadAudio, h]
    | transcriptions req =>
      simp only [requestAudio] at h
      simp [handle, transcriptionsEndpoint, transcriptionsCallOf, loadAudio, h]
    | detectLanguage req =>
      simp only [requestAudio] at h
      simp [handle, detectLanguageEndpoint, loadAudio, h]
  exact ⟨hr, by rw [hr]; rfl⟩

theorem c5_empty_audio_rejected_witness :
    requestAudio (.asr emptyAsrRequest) = [] ∧
    (handle sampleCfg (startup sampleCfg) (.asr emptyAsrRequest)).1.status = 400 :=
  ⟨rfl,
    (c5_empty_audio_rejected sampleCfg (startup sampleCfg) (.asr emptyAsrRequest) rfl).2⟩

/-- Claim C6: when the active engine supports diarization and a request asks
for diarization with both speaker bounds provided and `min > max`, the
engine call fails with `InvalidOptionError` and no inference runs. -/
theorem c6_contradictory_speaker_bounds (e : Engine) (call : TranscribeCall)
    (mn mx : Int)
    (hcap : e.caps.diarization = true)
    (hd : call.diarization.diarize = true)
    (hmn : call.diarization.minSpeakers = some mn)
    (hmx : call.diarization.maxSpeakers = some mx)
    (hlt : mx < mn) (hne : call.audio ≠ []) :
    e.transcribe call = ⟨.error .invalidOption, false⟩ := by
  unfold Engine.transcribe transcribeCore effectiveCall
  simp [speakerBoundsBad, hcap, hd, hmn, hmx, hne, hlt]

theorem c6_contradictory_speaker_bounds_witness :
    whisperxEngine.caps.diarization = true ∧
    whisperxEngine.transcribe badBoundsCall = ⟨.error .invalidOption, false⟩ :=
  ⟨rfl,
    c6_contradictory_speaker_bounds whisperxEngine badBoundsCall 3 2 rfl rfl rfl rfl
      (by decide) (by decide)⟩

/-- Claim C7: against an engine that advertises neither VAD nor diarization
(the reference variant), two `/asr` requests identical except for
`vad_filter` both succeed and produce the same response. -/
theorem c7_vad_ignored_on_reference (cfg : Config) (e : Engine) (req : AsrRequest)
    (hvad : e.caps.vad = false) (hdia : e.caps.diarization = false)
    (hne : req.audioFile ≠ []) :
    asrEndpoint cfg e { req with vadFilter := some true } =
      asrEndpoint cfg e { req with vadFilter := some false } ∧
    (asrEndpoint cfg e { req with vadFilter := some true }).status = 200 := by
  have hload : loadAudio req.audioFile (req.encode.getD true) = .ok req.audioFile := by
    simp [loadAudio, hne]
  have hcall : ∀ b : Bool,
      asrCallOf { req with vadFilter := some b } = .ok
        { audio := req.audioFile
          task := req.task.getD "transcribe"
          language := req.language
          initialPrompt := req.initialPrompt
          vadFilter := b
          wordTimestamps := req.wordTimestamps.getD false
          diarization := ⟨req.diarize.getD false, req.minSpeakers, req.maxSpeakers⟩
          output := req.output.getD "txt" } := by
    intro b
    simp [asrCallOf, hload]
  have heff : ∀ b : Bool,
      effectiveCall e.caps
        { audio := req.audioFile
          task := req.task.getD "transcribe"
          language := req.language
          initialPrompt := req.initialPrompt
          vadFilter := b
          wordTimestamps := req.wordTimestamps.getD false
          diarization := ⟨req.diarize.getD false, req.minSpeakers, req.maxSpeakers⟩
          output := req.output.getD "txt" } =
        { audio := req.audioFile
          task := req.task.getD "transcribe"
          language := req.language
          initialPrompt := req.initialPrompt
          vadFilter := false
          wordTimestamps := req.wordTimestamps.getD false && e.caps.wordTimestamps
          diarization := ⟨false, req.minSpeakers, req.maxSpeakers⟩
          output := req.output.getD "txt" } := by
    intro b
    simp [effectiveCall, hvad, hdia]
  have hcore :
      transcribeCore
        { audio := req.audioFile
          task := req.task.getD "transcribe"
          language := req.language
          initialPrompt := req.initialPrompt
          vadFilter := false
          wordTimestamps := req.wordTimestamps.getD false && e.caps.wordTimestamps
          diarization := ⟨false, req.minSpeakers, req.maxSpeakers⟩
          output := req.output.getD "txt" } =
        ⟨.ok (render (req.output.getD "txt") (runInference req.audioFile)), true⟩ := by
    simp [transcribeCore, hne]
  constructor
  · simp only [asrEndpoint, hcall, Engine.transcribe, heff]
  · simp only [asrEndpoint, hcall, Engine.transcribe, heff, hcore]

theorem c7_vad_ignored_on_reference_witness :
    sampleEngine.caps.vad = false ∧
    asrEndpoint sampleCfg sampleEngine { sampleAsrRequest with vadFilter := some true } =
      asrEndpoint sampleCfg sampleEngine { sampleAsrRequest with vadFilter := some false } := by
  have H := c7_vad_ignored_on_reference sampleCfg sampleEngine sampleAsrRequest rfl rfl
    (by decide)
  exact ⟨rfl, H.1⟩

/-- Claim C4: every successful `/asr` response is a streamed `text/plain`
body carrying an `Asr-Engine` header with the configured variant name and a
`Content-Disposition` header of the form
`attachment; filename="<percent-encoded name>.<format>"`. -/
theorem asrEndpoint_error_left (cfg : Config) (e : Engine) (req : AsrRequest)
    (e1 : AsrError) (hc : asrCallOf req = .error e1) :
    asrEndpoint cfg e req = errorResponse e1 := by
  unfold asrEndpoint
  simp only [hc]

theorem asrEndpoint_error_right (cfg : Config) (e : Engine) (req : AsrRequest)
    (call : TranscribeCall) (e2 : AsrError)
    (hc : asrCallOf req = .ok call) (ht : (e.transcribe call).result = .error e2) :
    asrEndpoint cfg e req = errorResponse e2 := by
  unfold asrEndpoint
  simp only [hc, ht]

theorem asrEndpoint_ok_eq (cfg : Config) (e : Engine) (req : AsrRequest)
    (call : TranscribeCall) (out : String)
    (hc : asrCallOf req = .ok call) (ht : (e.transcribe call).result = .ok out) :
    asrEndpoint cfg e req =
      { status := 200
        mediaType := "text/plain"
        headers :=
          [("Asr-Engine", cfg.asrEngine),
           ("Content-Disposition",
             "attachment; filename=\"" ++ pyQuote req.filename ++ "."
               ++ req.output.getD "txt" ++ "\"")]
        body := .stream out } := by
  unfold asrEndpoint
  simp only [hc, ht]

theorem c4_asr_success_response_shape (cfg : Config) (e : Engine) (req : AsrRequest)
    (h : (asrEndpoint cfg e req).status = 200) :
    (asrEndpoint cfg e req).mediaType = "text/plain" ∧
    (asrEndpoint cfg e req).headers =
      [("Asr-Engine", cfg.asrEngine),
       ("Content-Disposition",
         "attachment; filename=\"" ++ pyQuote req.filename ++ "."
           ++ req.output.getD "txt" ++ "\"")] ∧
    (∃ out, (asrEndpoint cfg e req).body = Body.stream out) := by
  cases hc : asrCallOf req with
  | error e1 =>
    rw [asrEndpoint_error_left cfg e req e1 hc] at h
    exact absurd h (statusOf_ne_ok e1)
  | ok call =>
    cases ht : (e.transcribe call).result with
    | error e2 =>
      rw [asrEndpoint_error_right cfg e req call e2 hc ht] at h
      exact absurd h (statusOf_ne_ok e2)
    | ok out =>
      rw [asrEndpoint_ok_eq cfg e req call out hc ht]
      exact ⟨rfl, rfl, out, rfl⟩

theorem c4_asr_success_response_shape_witness :
    (asrEndpoint sampleCfg sampleEngine sampleAsrRequest).status = 200 ∧
    (asrEndpoint sampleCfg sampleEngine sampleAsrRequest).headers =
      [("Asr-Engine", "openai_whisper"),
       ("Content-Disposition", "attachment; filename=\"a%20b.txt\"")] := by
  have H := c4_asr_success_response_shape sampleCfg sampleEngine sampleAsrRequest rfl
  refine ⟨rfl, ?_⟩
  rw [H.2.1]
  rfl

theorem detected_code_mem (w : List Nat) : (languageDetection w).1 ∈ LANGUAGE_CODES := by
  unfold languageDetection
  exact List.get_mem _ _ _

theorem confidence_nonneg (w : List Nat) : 0 ≤ (languageDetection w).2 := by
  show (0 : ℚ) ≤ 1 / ((w.length : ℚ) + 1)
  positivity

theorem confidence_le_one (w : List Nat) : (languageDetection w).2 ≤ 1 := by
  show 1 / ((w.length : ℚ) + 1) ≤ 1
  rw [div_le_one (by positivity)]
  exact le_add_of_nonneg_left (by positivity)

theorem detectLanguageEndpoint_error (e : Engine) (req : DetectLanguageRequest)
    (e1 : AsrError) (hl : loadAudio req.audioFile (req.encode.getD true) = .error e1) :
    detectLanguageEndpoint e req = errorResponse e1 := by
  unfold detectLanguageEndpoint
  simp only [hl]

theorem detectLanguageEndpoint_ok_eq (e : Engine) (req : DetectLanguageRequest)
    (w : List Nat) (hl : loadAudio req.audioFile (req.encode.getD true) = .ok w) :
    detectLanguageEndpoint e req =
      { status := 200
        mediaType := "application/json"
        headers := []
        body := .jsonObj
          [("detected_language", .str (lookupLanguageName (languageDetection w).1)),
           ("language_code", .str (languageDetection w).1),
           ("confidence", .num (languageDetection w).2)] } := by
  unfold detectLanguageEndpoint
  simp only [hl]
  rfl

/-- Claim C8: every successful `/detect-language` response is a JSON object
with exactly the keys `detected_language` (the human-readable name looked up
from the code in the Whisper language table), `language_code` (a member of
the supported-language set) and `confidence` (a score in `[0, 1]`). -/
theorem c8_detect_language_response (e : Engine) (req : DetectLanguageRequest)
    (h : (detectLanguageEndpoint e req).status = 200) :
    ∃ code conf,
      (detectLanguageEndpoint e req).body =
        Body.jsonObj
          [("detected_language", Json.str (lookupLanguageName code)),
           ("language_code", Json.str code),
           ("confidence", Json.num conf)] ∧
      code ∈ LANGUAGE_CODES ∧ 0 ≤ conf ∧ conf ≤ 1 := by
  cases hl : loadAudio req.audioFile (req.encode.getD true) with
  | error e1 =>
    rw [detectLanguageEndpoint_error e req e1 hl] at h
    exact absurd h (statusOf_ne_ok e1)
  | ok w =>
    refine ⟨(languageDetection w).1, (languageDetection w).2, ?_, detected_code_mem w,
      confidence_nonneg w, confidence_le_one w⟩
    rw [detectLanguageEndpoint_ok_eq e req w hl]

theorem c8_detect_language_response_witness :
    ∃ code conf,
      (detectLanguageEndpoint sampleEngine sampleDetectRequest).body =
        Body.jsonObj
          [("detected_language", Json.str (lookupLanguageName code)),
           ("language_code", Json.str code),
           ("confidence", Json.num conf)] ∧
      code ∈ LANGUAGE_CODES ∧ 0 ≤ conf ∧ conf ≤ 1 :=
  c8_detect_language_response sampleEngine sampleDetectRequest rfl

end WhisperOpenapi
